import Mathlib

set_option maxRecDepth 100000

/-!
Verification of the reconciliation engine in `devops_orchestrator.py`
(repository `ibm-live-project-interns/infra`).

The development is a shallow embedding of the engine:
  * pure helpers (`is_mock_file`, `generate_dynamic_compose`) become Lean
    functions over explicit file views and strings;
  * the repository state prober (`get_status`, lines 37–106) becomes a pure
    classification over a small per-service filesystem record;
  * the process runner (`stream_command`, lines 108–129) becomes a function of
    the spawn outcome, which an external environment chooses;
  * the convergence engine (`run_bootstrap`, lines 235–335) becomes a state
    transformer over a workspace record, parameterised by the observable
    behaviour of the external subprocesses (git, docker).
-/

namespace Infra

/-! ## Substring machinery

Python's `pat in s` is substring containment; we embed strings as their
character lists and define prefix / containment / occurrence counting. -/

/-- `charsPre p s` : the character list `p` is a prefix of `s`. -/
def charsPre : List Char → List Char → Bool
  | [], _ => true
  | _ :: _, [] => false
  | a :: as, b :: bs => a == b && charsPre as bs

/-- `hasSub p s` : `p` occurs as a contiguous sublist of `s`
(Python `p in s` on strings). -/
def hasSub (p : List Char) : List Char → Bool
  | [] => charsPre p []
  | c :: t => charsPre p (c :: t) || hasSub p t

/-- Python's `pat in s` for strings. -/
def strContains (s pat : String) : Bool :=
  hasSub pat.data s.data

/-- Number of positions of `s` at which `p` occurs (the empty suffix is not a
position; all our patterns are nonempty). -/
def occCount (p : List Char) : List Char → Nat
  | [] => 0
  | c :: t => (if charsPre p (c :: t) then 1 else 0) + occCount p t

/-- Occurrence count on strings. -/
def occStr (s pat : String) : Nat :=
  occCount pat.data s.data

/-- `noStraddleB p s` : no nonempty suffix of `s` that is shorter than `p` is a
prefix of `p`; hence no occurrence of `p` can start inside `s` and continue
past its end. -/
def noStraddleB (p : List Char) : List Char → Bool
  | [] => true
  | c :: t => (decide (p.length ≤ (c :: t).length) || !charsPre (c :: t) p) && noStraddleB p t

theorem charsPre_length {p s : List Char} (h : charsPre p s = true) :
    p.length ≤ s.length := by
  induction p generalizing s with
  | nil => simp
  | cons a as ih =>
    cases s with
    | nil => simp [charsPre] at h
    | cons b bs =>
      simp only [charsPre, Bool.and_eq_true] at h
      simpa using ih h.2

theorem charsPre_append_left (p x y : List Char)
    (h : p.length ≤ x.length) : charsPre p (x ++ y) = charsPre p x := by
  induction p generalizing x with
  | nil => simp [charsPre]
  | cons a as ih =>
    cases x with
    | nil => simp at h
    | cons b bs =>
      simp only [List.cons_append, charsPre, List.append_eq]
      rw [ih bs (by simpa using h)]

theorem charsPre_swap {p x : List Char} (y : List Char)
    (h : charsPre p (x ++ y) = true) (hlen : x.length ≤ p.length) :
    charsPre x p = true := by
  induction x generalizing p with
  | nil => simp [charsPre]
  | cons b bs ih =>
    cases p with
    | nil => simp at hlen
    | cons a as =>
      simp only [List.cons_append, charsPre, Bool.and_eq_true] at h ⊢
      have hab : a = b := eq_of_beq h.1
      exact ⟨by simp [hab], ih h.2 (by simpa using hlen)⟩

theorem charsPre_self_append (p y : List Char) : charsPre p (p ++ y) = true := by
  induction p with
  | nil => simp [charsPre]
  | cons a as ih => simp [charsPre, ih]

/-- Splitting occurrence counting across an append, when no occurrence can
straddle the border. -/
theorem occCount_append (p a b : List Char)
    (hns : noStraddleB p a = true) :
    occCount p (a ++ b) = occCount p a + occCount p b := by
  induction a with
  | nil => simp [occCount]
  | cons c t ih =>
    simp only [noStraddleB, Bool.and_eq_true, Bool.or_eq_true, decide_eq_true_eq,
      Bool.not_eq_true'] at hns
    have hrest := ih hns.2
    have hhead : charsPre p ((c :: t) ++ b) = charsPre p (c :: t) := by
      by_cases hle : p.length ≤ (c :: t).length
      · exact charsPre_append_left p (c :: t) b hle
      · have hnotpre : charsPre (c :: t) p = false := by
          rcases hns.1 with hlen | hnp
          · exact absurd hlen hle
          · exact hnp
        have hR : charsPre p (c :: t) = false := by
          by_contra hcp
          rw [Bool.not_eq_false] at hcp
          exact hle (charsPre_length hcp)
        have hL : charsPre p ((c :: t) ++ b) = false := by
          by_contra hcp
          rw [Bool.not_eq_false] at hcp
          have hsw := charsPre_swap b hcp (le_of_not_le hle)
          rw [hnotpre] at hsw
          cases hsw
        rw [hL, hR]
    calc occCount p ((c :: t) ++ b)
        = (if charsPre p ((c :: t) ++ b) then 1 else 0) + occCount p (t ++ b) := by
          simp [List.cons_append, occCount]
      _ = (if charsPre p (c :: t) then 1 else 0) + (occCount p t + occCount p b) := by
          rw [hhead, hrest]
      _ = occCount p (c :: t) + occCount p b := by
          simp [occCount]; omega

/-- If all short suffixes of `a ++ b` lie inside `b`, straddle-freeness of `b`
transfers to `a ++ b`. -/
theorem noStraddleB_append (p a b : List Char)
    (hlen : p.length ≤ b.length + 1) (hb : noStraddleB p b = true) :
    noStraddleB p (a ++ b) = true := by
  induction a with
  | nil => simpa using hb
  | cons c t ih =>
    have hsuf : p.length ≤ (c :: (t ++ b)).length := by
      simp only [List.length_cons, List.length_append]
      omega
    simp only [List.cons_append, noStraddleB, Bool.and_eq_true, Bool.or_eq_true,
      decide_eq_true_eq]
    exact ⟨Or.inl (by simpa using hsuf), ih⟩

/-- An explicit decomposition witnesses containment. -/
theorem hasSub_of_parts (p x y s : List Char) (h : s = x ++ p ++ y) :
    hasSub p s = true := by
  subst h
  induction x with
  | nil =>
    cases p with
    | nil => cases y <;> simp [hasSub, charsPre]
    | cons a as =>
      have hpre : charsPre (a :: as) ((a :: as) ++ y) = true :=
        charsPre_self_append (a :: as) y
      simp only [List.nil_append, List.cons_append, hasSub, List.append_eq,
        Bool.or_eq_true]
      exact Or.inl (by simpa [List.cons_append] using hpre)
  | cons c t ih =>
    simp only [List.cons_append, hasSub, Bool.or_eq_true]
    exact Or.inr ih

/-! ## Configuration (lines 9–21) -/

/-- One entry of the `REPOS` configuration list. -/
structure Repo where
  name : String
  url : String
deriving DecidableEq

/-- The `REPOS` list (lines 16–21). -/
def REPOS : List Repo :=
  [⟨"datasource", "https://github.com/ibm-live-project-interns/datasource.git"⟩,
   ⟨"ingestor", "https://github.com/ibm-live-project-interns/ingestor.git"⟩,
   ⟨"ai-core", "https://github.com/ibm-live-project-interns/ai-core.git"⟩,
   ⟨"ui", "https://github.com/ibm-live-project-interns/ui.git"⟩]

/-! ## File views and mock detection (lines 27–35) -/

/-- What the program can observe of a file on disk: the file is absent, the
file exists but reading it raises an exception, or the file exists and has the
given text content. -/
inductive FileView
  | absent
  | unreadable
  | readable (content : String)
deriving DecidableEq

/-- `file_path.exists()` on a `FileView`. -/
def fileExists : FileView → Bool
  | .absent => false
  | .unreadable => true
  | .readable _ => true

/-- The sentinel marker embedded by the mock generator and checked by
`is_mock_file`. -/
def sentinel : String := "FAILSAFE MODE"

/-- `is_mock_file` (lines 27–35): a missing file is not a mock; a read
exception (the bare `except`) yields `False`; otherwise the file is a mock
iff its content contains the sentinel (`"FAILSAFE MODE" in content`). -/
def is_mock_file : FileView → Bool
  | .absent => false
  | .unreadable => false
  | .readable content => strContains content sentinel

/-- The mock Dockerfile written by `run_bootstrap` step 3 (lines 266–270). -/
def mock_content : String :=
  "FROM alpine:latest\nARG SERVICE_NAME\nRUN echo \"⚠️ FAILSAFE MODE: Service [$SERVICE_NAME] is running as a placeholder.\"\nCMD [\"sh\", \"-c\", \"while true; do echo 💤 [$SERVICE_NAME] Sleeping (Failsafe Mode)...; sleep 30; done\"]\n"

/-! ## Repository state prober (`get_status`, lines 37–106) -/

/-- The five service-state strings assigned by `get_status`
(`"❌ Missing"`, `"⚠️ Not a Git Repo"`, `"⚠️ Mock Active"`, `"✅ Valid Code"`,
`"❓ Corrupt"`). -/
inductive RepoState
  | missing
  | notGitRepo
  | mockActive
  | validCode
  | corrupt
deriving DecidableEq

/-- Alerts appended to `status["alerts"]`.  `runningMock`'s Boolean records
which reason text was chosen: `true` for "Repository clone failed or
missing." (no `.git`), `false` for the missing-Dockerfile reason. -/
inductive AlertKind
  | folderMissing (name : String)
  | runningMock (name : String) (cloneFailedOrMissing : Bool)
  | corruptNoDockerfile (name : String)
deriving DecidableEq

/-- What the prober and the convergence engine observe of one service folder
`services/<name>`: whether the folder exists, whether it is non-empty
(`any(path.iterdir())`), whether `<folder>/.git` exists, and the view of
`<folder>/Dockerfile`. -/
structure SvcFS where
  dirExists : Bool
  dirNonEmpty : Bool
  gitExists : Bool
  dockerfile : FileView
deriving DecidableEq

/-- The per-service body of the `get_status` repo loop (lines 54–78).
The first `if/elif` (lines 59–64) tentatively assigns Missing / Not-a-Git-Repo;
the second `if/elif/else` (lines 66–78) then assigns unconditionally, so its
result overwrites the tentative one in the `status["repos"]` dict.  Returns
the final dict entry and the alerts appended, in order. -/
def probeRepo (name : String) (fs : SvcFS) : Option RepoState × List AlertKind :=
  let first : Option RepoState × List AlertKind :=
    if !fs.dirExists then
      (some RepoState.missing, [AlertKind.folderMissing name])
    else if !fs.gitExists then
      (some RepoState.notGitRepo, [])
    else
      (none, [])
  if is_mock_file fs.dockerfile then
    (some RepoState.mockActive,
      first.2 ++ [AlertKind.runningMock name (!fs.gitExists)])
  else if fileExists fs.dockerfile then
    (some RepoState.validCode, first.2)
  else
    (some RepoState.corrupt, first.2 ++ [AlertKind.corruptNoDockerfile name])

/-- The repo-checking part of `get_status` (the loop of lines 54–78), folded
over the configured repo list: the `status["repos"]` entries in insertion
order and the accumulated `status["alerts"]`. -/
def get_status_repos (repos : List Repo) (svc : String → SvcFS) :
    List (String × Option RepoState) × List AlertKind :=
  repos.foldl
    (fun acc r =>
      let pr := probeRepo r.name (svc r.name)
      (acc.1 ++ [(r.name, pr.1)], acc.2 ++ pr.2))
    ([], [])

/-! ## Container status classification (lines 80–104) -/

inductive ContainerState
  | running
  | stopped
  | notCreated
deriving DecidableEq

/-- Per-service container classification (lines 89–96): substring matching of
the service name and the `"Up"` marker against the whole `docker compose ps -a`
output. -/
def classifyContainer (output name : String) : ContainerState :=
  if strContains output name && strContains output "Up" then .running
  else if strContains output name then .stopped
  else .notCreated

/-- Datastore classification (lines 98–101): the code uses a two-branch
check — `postgres` together with `Up` means Running, anything else means
Not Created. -/
def classifyDatabase (output : String) : ContainerState :=
  if strContains output "postgres" && strContains output "Up" then .running
  else .notCreated

/-- Modelled from the spec: "The datastore is classified the same way under a
fixed literal name", i.e. the three-way per-service rule applied to the
literal `postgres`.  Stated only to compare against `classifyDatabase`. -/
def specDatastoreThreeWay (output : String) : ContainerState :=
  classifyContainer output "postgres"

/-- The container part of `get_status` (lines 89–101): one entry per repo plus
the `"database"` entry. -/
def get_status_containers (repos : List Repo) (output : String) :
    List (String × ContainerState) :=
  repos.map (fun r => (r.name, classifyContainer output r.name))
    ++ [("database", classifyDatabase output)]

/-! ## Compose generator (`generate_dynamic_compose`, lines 131–164) -/

/-- The fixed tail of each generated service block (lines 142–144). -/
def tailLit : String := "\n    env_file: .env\n    networks: [org-network]\n"

/-- One generated service block (the f-string of lines 136–144). -/
def serviceBlock (name : String) : String :=
  "\n  " ++ name ++ ":\n    build:\n      " ++ ("context: ./services/" ++ name)
    ++ "\n      args:\n        " ++ ("SERVICE_NAME: " ++ name) ++ tailLit

/-- `services_block`, accumulated by `+=` over the repo list (lines 133–144). -/
def servicesBlockOf (repos : List Repo) : String :=
  repos.foldl (fun acc r => acc ++ serviceBlock r.name) ""

/-- The characters of `services_block`, one chunk per configured repo. -/
def blocksData : List Repo → List Char
  | [] => []
  | r :: rest => (serviceBlock r.name).data ++ blocksData rest

/-- The fixed leading part of the returned f-string (lines 146–162): version,
network and volume definitions and the always-included postgres service. -/
def composeHeader : String :=
  "version: '3.8'\nnetworks:\n  org-network:\n    driver: bridge\nvolumes:\n  postgres_data:\n  app_logs:\nservices:\n  postgres:\n    image: postgres:15-alpine\n    ports: [\"5432:5432\"]\n    networks: [org-network]\n    environment:\n      POSTGRES_USER: ${POSTGRES_USER}\n      POSTGRES_PASSWORD: ${POSTGRES_PASSWORD}\n      POSTGRES_DB: my_org_db\n    volumes: [\"postgres_data:/var/lib/postgresql/data\"]\n"

/-- `generate_dynamic_compose` (lines 131–164): the fixed header, the
accumulated service blocks, and the closing newline of the f-string. -/
def generate_dynamic_compose (repos : List Repo) : String :=
  composeHeader ++ servicesBlockOf repos ++ "\n"

/-- Text identifying the datastore block: its pinned image line. -/
def datastoreMarker : String := "image: postgres:15-alpine"

/-- Text identifying the shared network definition (not the per-service
`networks: [org-network]` attachments). -/
def networkMarker : String := "org-network:\n    driver: bridge"

/-! ## Process runner (`stream_command`, lines 108–129) -/

/-- Observable behaviour of `subprocess.Popen` for one invocation: either the
spawn (or the subsequent streaming) raises, or the process runs, emits the
given output lines, and exits with the given code. -/
inductive SpawnOutcome
  | raises (msg : String)
  | runs (exitCode : Int) (outLines : List String)
deriving DecidableEq

/-- What `stream_command` sends to its `log_container` sink. -/
inductive SinkEvent
  | pathError (cwd : String)
  | errorMsg (msg : String)
  | transcript (text : String)
deriving DecidableEq

structure StreamResult where
  ok : Bool
  spawned : Bool
  sink : List SinkEvent
deriving DecidableEq

/-- The streaming loop (lines 121–124): after each line the sink receives the
cumulative transcript so far. -/
def cumLogs (acc : String) : List String → List SinkEvent
  | [] => []
  | l :: ls => SinkEvent.transcript (acc ++ l) :: cumLogs (acc ++ l) ls

/-- `stream_command` (lines 108–129): refuse a missing working directory
without spawning; report a caught exception and fail; otherwise stream the
output and succeed iff the exit status is 0. -/
def stream_command (cwd : String) (cwdExists : Bool) (outcome : SpawnOutcome) :
    StreamResult :=
  if !cwdExists then ⟨false, false, [SinkEvent.pathError cwd]⟩
  else
    match outcome with
    | .raises msg => ⟨false, false, [SinkEvent.errorMsg msg]⟩
    | .runs code outLines => ⟨code == 0, true, cumLogs "" outLines⟩

/-! ## Convergence engine (`run_bootstrap`, lines 235–335) -/

/-- Existence of the three directories the engine manages. -/
structure Dirs where
  rootExists : Bool
  servicesDirExists : Bool
  failsafeDirExists : Bool
deriving DecidableEq

/-- Step 1 (lines 245–250): the three `mkdir` calls run only when the
workspace root itself does not exist. -/
def step1 (d : Dirs) : Dirs :=
  if !d.rootExists then ⟨true, true, true⟩ else d

/-- The mutable on-disk state the engine touches. -/
structure World where
  dirs : Dirs
  svc : String → SvcFS
  composeFile : Option String
  mockFile : FileView
  envFile : Option String

/-- Observable behaviour of the external collaborators during one run.
`cloneEffect`/`pullEffect` give the service folder state after the respective
git subprocess returns (the code discards the runner's Boolean result for
both, so success and failure are both covered by an arbitrary effect);
`removeRaises` says whether `os.remove` on the mock raises (line 304);
`dockerUp` is the spawn outcome of the final `docker compose up`. -/
structure Ext where
  composeWriteFails : Bool
  cloneEffect : String → SvcFS → SvcFS
  pullEffect : String → SvcFS → SvcFS
  removeRaises : String → Bool
  dockerUp : SpawnOutcome

/-- The `log(...)` lines of `run_bootstrap`, abstracted by kind. -/
inductive LogEvent
  | creatingWorkspace
  | generatingCompose
  | composeWriteError
  | cloning (name : String)
  | cloneSkipped (name : String)
  | mockRemoving (name : String)
  | updating (name : String)
  | injectMock (name : String)
  | usingMock (name : String)
  | svcValid (name : String)
  | launching
  | doneOk
  | dockerFailed
deriving DecidableEq

/-- The three mutually exclusive log lines of the final per-service check
(step C, lines 309–316). -/
def isStepC (name : String) : LogEvent → Bool
  | .injectMock n => n == name
  | .usingMock n => n == name
  | .svcValid n => n == name
  | _ => false

/-- Lines 284–285: ensure the service dir exists (a fresh `mkdir` yields an
empty directory, so `dirNonEmpty` is unchanged). -/
def ensureDir (fs : SvcFS) : SvcFS :=
  if !fs.dirExists then { fs with dirExists := true } else fs

/-- Steps A and B of the loop (lines 287–307): clone when `.git` is missing —
unless the folder is non-empty, which only logs a skip — otherwise delete a
detected mock (best-effort) and pull. -/
def stepAB (ext : Ext) (r : Repo) (fs : SvcFS) : SvcFS × List LogEvent :=
  if !fs.gitExists then
    if fs.dirNonEmpty && !fs.gitExists then
      (fs, [LogEvent.cloning r.name, LogEvent.cloneSkipped r.name])
    else
      (ext.cloneEffect r.name fs, [LogEvent.cloning r.name])
  else
    let step_rm : SvcFS × List LogEvent :=
      if is_mock_file fs.dockerfile then
        (if ext.removeRaises r.name then fs
         else { fs with dockerfile := FileView.absent },
         [LogEvent.mockRemoving r.name])
      else (fs, [])
    (ext.pullEffect r.name step_rm.1, step_rm.2 ++ [LogEvent.updating r.name])

/-- Step C, the final validation and injection (lines 309–316). -/
def stepC (mock : FileView) (r : Repo) (fs2 : SvcFS) : SvcFS × LogEvent :=
  if !fileExists fs2.dockerfile then
    ({ fs2 with dockerfile := mock }, LogEvent.injectMock r.name)
  else if is_mock_file fs2.dockerfile then (fs2, LogEvent.usingMock r.name)
  else (fs2, LogEvent.svcValid r.name)

/-- The body of the per-service loop (lines 277–316): ensure the folder,
clone or update, then the final validation / mock injection. -/
def processService (ext : Ext) (mock : FileView) (r : Repo) (fs : SvcFS) :
    SvcFS × List LogEvent :=
  let ab := stepAB ext r (ensureDir fs)
  let c := stepC mock r ab.1
  (c.1, ab.2 ++ [c.2])

/-- The per-service loop over the repo list, threading the services map. -/
def processAll (ext : Ext) (mock : FileView) :
    List Repo → (String → SvcFS) → (String → SvcFS) × List LogEvent
  | [], svc => (svc, [])
  | r :: rest, svc =>
    let pr := processService ext mock r (svc r.name)
    let rest2 := processAll ext mock rest
      (fun n => if n = r.name then pr.1 else svc n)
    (rest2.1, pr.2 ++ rest2.2)

/-- Outcome of one `run_bootstrap` call: the early `return` on a compose write
error (line 262), or the final success flag of the docker launch. -/
inductive BootResult
  | abortedComposeWrite
  | finished (success : Bool)
deriving DecidableEq

/-- The `.env` defaults written at step 5 (lines 319–321). -/
def env_defaults : String := "ENV=dev\nPOSTGRES_USER=admin\nPOSTGRES_PASSWORD=secret"

/-- `run_bootstrap` (lines 235–335). -/
def run_bootstrap (ext : Ext) (repos : List Repo) (w : World) :
    BootResult × World × List LogEvent :=
  let logs1 : List LogEvent :=
    if !w.dirs.rootExists then [LogEvent.creatingWorkspace] else []
  let w1 : World := { w with dirs := step1 w.dirs }
  if ext.composeWriteFails then
    (BootResult.abortedComposeWrite, w1,
      logs1 ++ [LogEvent.generatingCompose, LogEvent.composeWriteError])
  else
    let w2 : World := { w1 with composeFile := some (generate_dynamic_compose repos) }
    let w3 : World := { w2 with
      dirs := { w2.dirs with failsafeDirExists := true },
      mockFile := FileView.readable mock_content }
    let p4 := processAll ext w3.mockFile repos w3.svc
    let w4 : World := { w3 with svc := p4.1 }
    let w5 : World :=
      if w4.envFile.isNone then { w4 with envFile := some env_defaults } else w4
    let res := stream_command "prod" w5.dirs.rootExists ext.dockerUp
    (BootResult.finished res.ok, w5,
      logs1 ++ [LogEvent.generatingCompose] ++ p4.2
        ++ [LogEvent.launching,
            if res.ok then LogEvent.doneOk else LogEvent.dockerFailed])

/-! ## Concrete environments and worlds used by individual claims -/

/-- Environment whose compose-file write raises (`except` at line 260). -/
def extAbortDemo : Ext :=
  ⟨true, fun _ fs => fs, fun _ fs => fs, fun _ => false, SpawnOutcome.runs 0 []⟩

/-- Environment exercising the fail-soft path: compose write succeeds, the
clone and pull subprocesses change nothing on disk (covering failed clones
and pulls), `os.remove` raises, and the final docker launch succeeds. -/
def failDemoExt : Ext :=
  ⟨false, fun _ fs => fs, fun _ fs => fs, fun _ => true, SpawnOutcome.runs 0 ["ok"]⟩

/-- A fresh machine: no workspace, no service folders, no files. -/
def worldEmptyDemo : World :=
  ⟨⟨false, false, false⟩, fun _ => ⟨false, false, false, FileView.absent⟩,
   none, FileView.absent, none⟩

/-- A provisioned workspace with a user-edited `.env`. -/
def worldWithEnvDemo : World :=
  ⟨⟨true, true, true⟩, fun _ => ⟨true, true, true, FileView.readable "FROM x"⟩,
   none, FileView.absent, some "ENV=prod\nPOSTGRES_USER=me\nPOSTGRES_PASSWORD=pw"⟩

/-- A single-service configuration. -/
def oneRepoDemo : List Repo := [⟨"x", "u"⟩]

/-! ## Claim C9 — classification exhaustiveness -/

/-- C9: for every combination of the per-service facts (folder exists,
version-control metadata, build recipe, mock sentinel), the prober assigns
exactly one of the five defined states: the final `status["repos"]` entry is
always set, to a single `RepoState`. -/
theorem C9_classification_total (name : String) (fs : SvcFS) :
    ∃! s : RepoState, (probeRepo name fs).1 = some s := by
  have h : ∃ s : RepoState, (probeRepo name fs).1 = some s := by
    unfold probeRepo
    by_cases hm : is_mock_file fs.dockerfile = true
    · exact ⟨RepoState.mockActive, by simp [hm]⟩
    · by_cases he : fileExists fs.dockerfile = true
      · exact ⟨RepoState.validCode, by simp [hm, he]⟩
      · exact ⟨RepoState.corrupt, by simp [hm, he]⟩
  obtain ⟨s, hs⟩ := h
  refine ⟨s, hs, fun t ht => ?_⟩
  rw [hs] at ht
  exact Option.some_inj.mp ht.symm

/-! ## Claim C10 — mock detection is total and fail-closed -/

/-- C10: `is_mock_file` never raises and is fail-closed: a missing file and a
file whose read raises are both classified "not mock"; the only way to be
classified as mock is a readable content containing the sentinel. -/
theorem C10_is_mock_fail_closed :
    is_mock_file FileView.absent = false ∧
    is_mock_file FileView.unreadable = false ∧
    ∀ fv : FileView, is_mock_file fv = true →
      ∃ c, fv = FileView.readable c ∧ strContains c sentinel = true := by
  refine ⟨rfl, rfl, ?_⟩
  intro fv h
  cases fv with
  | absent => simp [is_mock_file] at h
  | unreadable => simp [is_mock_file] at h
  | readable c => exact ⟨c, rfl, h⟩

theorem C10_is_mock_fail_closed_witness :
    is_mock_file (FileView.readable mock_content) = true ∧
    ∃ c, FileView.readable mock_content = FileView.readable c ∧
      strContains c sentinel = true :=
  ⟨by decide,
   C10_is_mock_fail_closed.2.2 (FileView.readable mock_content) (by decide)⟩

/-! ## Claim C5 — generation and detection of mocks agree -/

/-- C5: the recipe text written by the mock generator contains the sentinel
and is always classified as mock (also by the prober, whatever the other
facts of an existing folder); content without the exact sentinel substring is
never classified as mock. -/
theorem C5_sentinel_agreement :
    is_mock_file (FileView.readable mock_content) = true ∧
    (∀ content : String, strContains content sentinel = false →
      is_mock_file (FileView.readable content) = false) ∧
    (∀ name : String, ∀ dirNE git : Bool,
      (probeRepo name ⟨true, dirNE, git, FileView.readable mock_content⟩).1
        = some RepoState.mockActive) := by
  refine ⟨by decide, ?_, ?_⟩
  · intro c h
    simpa [is_mock_file] using h
  · intro name dirNE git
    have hm : is_mock_file (FileView.readable mock_content) = true := by decide
    simp [probeRepo, hm]

theorem C5_sentinel_agreement_witness :
    strContains "FROM alpine:latest\nRUN echo failsafe mode\n" sentinel = false ∧
    is_mock_file
      (FileView.readable "FROM alpine:latest\nRUN echo failsafe mode\n") = false :=
  ⟨by decide, C5_sentinel_agreement.2.1 _ (by decide)⟩

/-! ## Claim C1 — a missing service folder

The claim (and spec §4.4 step 1) says the final state is `Missing` with the
single "folder missing entirely" alert.  In the code the second `if` chain of
`get_status` (lines 66–78) runs unconditionally and always re-assigns
`status["repos"][name]`, so for a missing folder (no Dockerfile, hence not a
mock) it overwrites `"❌ Missing"` with `"❓ Corrupt"` and also appends the
corrupt alert.  The `"❌ Missing"` (and `"⚠️ Not a Git Repo"`) assignments of
lines 60/63 can never survive to the returned status — dead assignments that
the code plainly intends to be observable. -/

/-- C1: evaluation of `get_status`'s repo check at the failing input: a
service whose folder does not exist ends up reported `Corrupt`, with both the
missing-folder alert and the corrupt alert; the final state is not
`Missing`. -/
theorem C1_missing_folder_reports_corrupt :
    get_status_repos
        [⟨"datasource", "https://github.com/ibm-live-project-interns/datasource.git"⟩]
        (fun _ => ⟨false, false, false, FileView.absent⟩)
      = ([("datasource", some RepoState.corrupt)],
         [AlertKind.folderMissing "datasource",
          AlertKind.corruptNoDockerfile "datasource"]) ∧
    (probeRepo "datasource" ⟨false, false, false, FileView.absent⟩).1
      ≠ some RepoState.missing := by
  exact ⟨rfl, by decide⟩

/-! ## Claim C3 — container classification -/

/-- C3 counterexample: the datastore is NOT classified by the same three-way
rule as the services.  On a listing that contains `postgres` without an `Up`
marker the three-way rule yields `Stopped`, but `get_status` (lines 98–101)
reports `Not Created`. -/
theorem C3_datastore_not_three_way :
    classifyDatabase "postgres-1  Exited (1)" = ContainerState.notCreated ∧
    specDatastoreThreeWay "postgres-1  Exited (1)" = ContainerState.stopped ∧
    classifyDatabase "postgres-1  Exited (1)"
      ≠ specDatastoreThreeWay "postgres-1  Exited (1)" :=
  ⟨by decide, by decide, by decide⟩

/-- C3 (amended): services follow the three-way substring rule (name and
`Up` both present ⇒ Running; name present, `Up` absent ⇒ Stopped; name absent
⇒ Not Created), but the datastore follows a two-way rule: Running when
`postgres` and `Up` are both present, otherwise Not Created (never
Stopped). -/
theorem C3_container_classification (output name : String) :
    (strContains output name = true → strContains output "Up" = true →
      classifyContainer output name = ContainerState.running) ∧
    (strContains output name = true → strContains output "Up" = false →
      classifyContainer output name = ContainerState.stopped) ∧
    (strContains output name = false →
      classifyContainer output name = ContainerState.notCreated) ∧
    (strContains output "postgres" = true → strContains output "Up" = true →
      classifyDatabase output = ContainerState.running) ∧
    ((strContains output "postgres" = false ∨ strContains output "Up" = false) →
      classifyDatabase output = ContainerState.notCreated) := by
  refine ⟨?_, ?_, ?_, ?_, ?_⟩
  · intro h1 h2; simp [classifyContainer, h1, h2]
  · intro h1 h2; simp [classifyContainer, h1, h2]
  · intro h1; simp [classifyContainer, h1]
  · intro h1 h2; simp [classifyDatabase, h1, h2]
  · intro h
    rcases h with h1 | h2
    · simp [classifyDatabase, h1]
    · simp [classifyDatabase, h2]

theorem C3_container_classification_witness :
    (strContains "infra-ui-1   Up 2 minutes" "ui" = true ∧
     strContains "infra-ui-1   Up 2 minutes" "Up" = true ∧
     classifyContainer "infra-ui-1   Up 2 minutes" "ui" = ContainerState.running) ∧
    (strContains "infra-ui-1   Exited" "Up" = false ∧
     classifyContainer "infra-ui-1   Exited" "ui" = ContainerState.stopped) :=
  ⟨⟨by decide, by decide,
    (C3_container_classification "infra-ui-1   Up 2 minutes" "ui").1
      (by decide) (by decide)⟩,
   ⟨by decide,
    (C3_container_classification "infra-ui-1   Exited" "ui").2.1
      (by decide) (by decide)⟩⟩

/-! ## Claim C6 — directory setup (step 1 of `run_bootstrap`)

The whole directory block (lines 246–250) is guarded by
`if not WORK_DIR.exists()`, so when the workspace root already exists and its
subdirectories do not, step 1 creates nothing. -/

/-- C6 counterexample: with the root present but `services/` and `_failsafe/`
absent, step 1 leaves both subdirectories absent. -/
theorem C6_step1_skips_existing_root :
    (step1 ⟨true, false, false⟩).servicesDirExists = false ∧
    (step1 ⟨true, false, false⟩).failsafeDirExists = false :=
  ⟨rfl, rfl⟩

/-- C6 (amended): step 1 creates the workspace root, `services/` and
`_failsafe/` only when the root does not yet exist; when the root already
exists step 1 changes nothing.  In all cases the root exists afterwards. -/
theorem C6_step1_amended (d : Dirs) :
    (d.rootExists = false →
      step1 d = ⟨true, true, true⟩) ∧
    (d.rootExists = true → step1 d = d) ∧
    (step1 d).rootExists = true := by
  rcases d with ⟨r, s, f⟩
  cases r with
  | false =>
    exact ⟨fun _ => by simp [step1], fun h => (by cases h), (by simp [step1])⟩
  | true =>
    exact ⟨fun h => (by cases h), fun _ => by simp [step1], (by simp [step1])⟩

theorem C6_step1_amended_witness :
    Dirs.rootExists ⟨false, false, false⟩ = false ∧
    step1 ⟨false, false, false⟩ = ⟨true, true, true⟩ :=
  ⟨rfl, (C6_step1_amended ⟨false, false, false⟩).1 rfl⟩

/-! ## Claim C7 — the process runner contract -/

/-- C7: `stream_command` fails without spawning (reporting the path error)
when the working directory does not exist; with an existing directory a
spawn-time exception is caught, reported, and yields failure; otherwise the
result is `true` iff the process exit status is 0. -/
theorem C7_stream_command_contract (cwd : String) (cwdExists : Bool)
    (outcome : SpawnOutcome) :
    (cwdExists = false →
      stream_command cwd cwdExists outcome
        = ⟨false, false, [SinkEvent.pathError cwd]⟩) ∧
    (cwdExists = true → ∀ msg, outcome = SpawnOutcome.raises msg →
      stream_command cwd cwdExists outcome
        = ⟨false, false, [SinkEvent.errorMsg msg]⟩) ∧
    (cwdExists = true → ∀ code outLines,
      outcome = SpawnOutcome.runs code outLines →
      ((stream_command cwd cwdExists outcome).spawned = true ∧
       ((stream_command cwd cwdExists outcome).ok = true ↔ code = 0))) := by
  refine ⟨?_, ?_, ?_⟩
  · intro h; simp [stream_command, h]
  · intro h msg hmsg; subst hmsg; simp [stream_command, h]
  · intro h code outLines hrun
    subst hrun
    simp [stream_command, h]

theorem C7_stream_command_witness :
    ((false : Bool) = false ∧
      stream_command "prod" false (SpawnOutcome.runs 0 [])
        = ⟨false, false, [SinkEvent.pathError "prod"]⟩) ∧
    ((stream_command "prod" true (SpawnOutcome.runs 0 ["done"])).spawned = true ∧
      ((stream_command "prod" true (SpawnOutcome.runs 0 ["done"])).ok = true
        ↔ (0 : Int) = 0)) :=
  ⟨⟨rfl, (C7_stream_command_contract "prod" false (SpawnOutcome.runs 0 [])).1 rfl⟩,
   (C7_stream_command_contract "prod" true (SpawnOutcome.runs 0 ["done"])).2.2
     rfl 0 ["done"] rfl⟩

/-! ## Helper lemmas about `run_bootstrap` -/

theorem step1_rootExists (d : Dirs) : (step1 d).rootExists = true := by
  rcases d with ⟨r, s, f⟩
  cases r <;> rfl

theorem fileExists_ne_absent {fv : FileView} (h : fileExists fv = true) :
    fv ≠ FileView.absent := by
  cases fv <;> simp_all [fileExists]

/-- Step C always leaves a Dockerfile in place (given a real mock file to
copy): it injects the mock when the recipe is absent and otherwise keeps the
existing file. -/
theorem stepC_dockerfile_present (mock : FileView) (r : Repo) (fs2 : SvcFS)
    (hm : mock ≠ FileView.absent) :
    ((stepC mock r fs2).1).dockerfile ≠ FileView.absent := by
  unfold stepC
  by_cases he : fileExists fs2.dockerfile = true
  · by_cases hmk : is_mock_file fs2.dockerfile = true
    · simpa [he, hmk] using fileExists_ne_absent he
    · simpa [he, hmk] using fileExists_ne_absent he
  · simpa [he] using hm

/-- Step C always logs exactly one of its three per-service lines. -/
theorem stepC_log_isStepC (mock : FileView) (r : Repo) (fs2 : SvcFS) :
    isStepC r.name (stepC mock r fs2).2 = true := by
  unfold stepC
  by_cases he : fileExists fs2.dockerfile = true
  · by_cases hmk : is_mock_file fs2.dockerfile = true
    · simp [he, hmk, isStepC]
    · simp [he, hmk, isStepC]
  · simp [he, isStepC]

theorem processService_dockerfile_present (ext : Ext) (mock : FileView)
    (r : Repo) (fs : SvcFS) (hm : mock ≠ FileView.absent) :
    ((processService ext mock r fs).1).dockerfile ≠ FileView.absent := by
  unfold processService
  exact stepC_dockerfile_present mock r _ hm

theorem processService_log (ext : Ext) (mock : FileView) (r : Repo) (fs : SvcFS) :
    ∃ e ∈ (processService ext mock r fs).2, isStepC r.name e = true := by
  unfold processService
  refine ⟨(stepC mock r (stepAB ext r (ensureDir fs)).1).2, ?_,
    stepC_log_isStepC _ _ _⟩
  simp

theorem processAll_preserves (ext : Ext) (mock : FileView) (repos : List Repo)
    (svc : String → SvcFS) (hm : mock ≠ FileView.absent) (n : String)
    (h : (svc n).dockerfile ≠ FileView.absent) :
    ((processAll ext mock repos svc).1 n).dockerfile ≠ FileView.absent := by
  induction repos generalizing svc with
  | nil => simpa [processAll] using h
  | cons r rest ih =>
    simp only [processAll]
    refine ih _ ?_
    by_cases hn : n = r.name
    · simp only [hn, if_pos rfl]
      exact processService_dockerfile_present ext mock r (svc r.name) hm
    · simp only [if_neg hn]
      exact h

/-- After the per-service loop every configured service has a Dockerfile. -/
theorem processAll_dockerfile_present (ext : Ext) (mock : FileView)
    (repos : List Repo) (svc : String → SvcFS) (hm : mock ≠ FileView.absent) :
    ∀ r ∈ repos,
      ((processAll ext mock repos svc).1 r.name).dockerfile ≠ FileView.absent := by
  induction repos generalizing svc with
  | nil => intro r hr; cases hr
  | cons r0 rest ih =>
    intro r hr
    rcases List.mem_cons.mp hr with heq | hmem
    · subst heq
      simp only [processAll]
      refine processAll_preserves ext mock rest _ hm r.name ?_
      simp only [if_pos rfl]
      exact processService_dockerfile_present ext mock r (svc r.name) hm
    · simp only [processAll]
      exact ih _ r hmem

/-- The loop emits a step-C log line for every configured service. -/
theorem processAll_logs (ext : Ext) (mock : FileView) (repos : List Repo)
    (svc : String → SvcFS) :
    ∀ r ∈ repos,
      ∃ e ∈ (processAll ext mock repos svc).2, isStepC r.name e = true := by
  induction repos generalizing svc with
  | nil => intro r hr; cases hr
  | cons r0 rest ih =>
    intro r hr
    rcases List.mem_cons.mp hr with heq | hmem
    · subst heq
      obtain ⟨e, he, hstep⟩ := processService_log ext mock r (svc r.name)
      refine ⟨e, ?_, hstep⟩
      simp only [processAll]
      exact List.mem_append_left _ he
    · obtain ⟨e, he, hstep⟩ := ih
        (fun n => if n = r0.name
          then (processService ext mock r0 (svc r0.name)).1 else svc n) r hmem
      refine ⟨e, ?_, hstep⟩
      simp only [processAll]
      exact List.mem_append_right _ he

/-- The fully-evaluated form of a `run_bootstrap` run whose compose write
succeeds. -/
theorem run_bootstrap_normal_shape (ext : Ext) (repos : List Repo) (w : World)
    (h : ext.composeWriteFails = false) :
    run_bootstrap ext repos w =
      (BootResult.finished (stream_command "prod" true ext.dockerUp).ok,
       { dirs := ⟨true, (step1 w.dirs).servicesDirExists, true⟩,
         svc := (processAll ext (FileView.readable mock_content) repos w.svc).1,
         composeFile := some (generate_dynamic_compose repos),
         mockFile := FileView.readable mock_content,
         envFile := some (w.envFile.getD env_defaults) },
       (if !w.dirs.rootExists then [LogEvent.creatingWorkspace] else [])
         ++ [LogEvent.generatingCompose]
         ++ (processAll ext (FileView.readable mock_content) repos w.svc).2
         ++ [LogEvent.launching,
             if (stream_command "prod" true ext.dockerUp).ok then LogEvent.doneOk
             else LogEvent.dockerFailed]) := by
  have hroot : (step1 w.dirs).rootExists = true := step1_rootExists w.dirs
  unfold run_bootstrap
  cases henv : w.envFile with
  | none => simp [h, henv, hroot]
  | some c => simp [h, henv, hroot]

/-! ## Claim C2 — fail-soft convergence

The claim lists the descriptor write error among the non-final failures that
let the run continue.  It does not: the `except` handler of lines 260–262 ends
in `return`, so a failed compose write aborts the run before the per-service
loop, the mock generation, the `.env` step and the launch.  All the other
listed failures (clone failure or refusal, pull failure, mock-deletion error)
do let the run continue, step C runs for every service, and the return value
is decided solely by the final docker launch. -/

/-- C2 counterexample: with a failing descriptor write the run aborts — no
per-service step-C log line is emitted and the service folder is never
touched, contradicting "every non-final failure lets the run continue". -/
theorem C2_compose_write_abort :
    (run_bootstrap extAbortDemo oneRepoDemo worldEmptyDemo).1
      = BootResult.abortedComposeWrite ∧
    (run_bootstrap extAbortDemo oneRepoDemo worldEmptyDemo).2.2.filter
      (isStepC "x") = [] ∧
    (run_bootstrap extAbortDemo oneRepoDemo worldEmptyDemo).2.1.svc "x"
      = worldEmptyDemo.svc "x" :=
  ⟨rfl, rfl, rfl⟩

/-- C2 (amended): provided the descriptor write succeeds, every other
non-final failure (clone failure or refusal, pull failure, mock-deletion
error — all quantified over arbitrary subprocess behaviour) lets the run
continue: the final per-service check and mock injection execute for every
service (each ends with a Dockerfile in place and a step-C log line), and the
run's result is exactly the success flag of the final container launch. -/
theorem C2_failsoft_amended (ext : Ext) (repos : List Repo) (w : World)
    (h : ext.composeWriteFails = false) :
    (run_bootstrap ext repos w).1
      = BootResult.finished (stream_command "prod" true ext.dockerUp).ok ∧
    (∀ r ∈ repos,
      ((run_bootstrap ext repos w).2.1.svc r.name).dockerfile
        ≠ FileView.absent) ∧
    (∀ r ∈ repos,
      ∃ e ∈ (run_bootstrap ext repos w).2.2, isStepC r.name e = true) := by
  rw [run_bootstrap_normal_shape ext repos w h]
  refine ⟨rfl, ?_, ?_⟩
  · intro r hr
    exact processAll_dockerfile_present ext (FileView.readable mock_content)
      repos w.svc (by simp) r hr
  · intro r hr
    obtain ⟨e, he, hstep⟩ :=
      processAll_logs ext (FileView.readable mock_content) repos w.svc r hr
    refine ⟨e, ?_, hstep⟩
    exact List.mem_append_left _ (List.mem_append_right _ he)

theorem C2_failsoft_witness :
    failDemoExt.composeWriteFails = false ∧
    (run_bootstrap failDemoExt oneRepoDemo worldEmptyDemo).1
      = BootResult.finished
          (stream_command "prod" true failDemoExt.dockerUp).ok ∧
    (∀ r ∈ oneRepoDemo,
      ((run_bootstrap failDemoExt oneRepoDemo worldEmptyDemo).2.1.svc
        r.name).dockerfile ≠ FileView.absent) :=
  ⟨rfl,
   (C2_failsoft_amended failDemoExt oneRepoDemo worldEmptyDemo rfl).1,
   (C2_failsoft_amended failDemoExt oneRepoDemo worldEmptyDemo rfl).2.1⟩

/-! ## Claim C8 — the EnvironmentSecrets file

An existing `.env` is indeed never touched.  But "converge creates it" fails
on the aborted run: the early `return` of line 262 happens before the `.env`
step of lines 318–321. -/

/-- C8 counterexample: a converge run whose descriptor write fails returns
without creating the absent `.env`. -/
theorem C8_abort_skips_env_creation :
    worldEmptyDemo.envFile = none ∧
    (run_bootstrap extAbortDemo REPOS worldEmptyDemo).2.1.envFile = none :=
  ⟨rfl, rfl⟩

/-- C8 (amended): converge never changes an existing `.env`, whatever its
content and however the run goes; when `.env` is absent, converge creates it
with the fixed defaults provided the run is not aborted by the descriptor
write failure. -/
theorem C8_env_amended (ext : Ext) (repos : List Repo) (w : World) :
    (∀ c, w.envFile = some c →
      (run_bootstrap ext repos w).2.1.envFile = some c) ∧
    (ext.composeWriteFails = false → w.envFile = none →
      (run_bootstrap ext repos w).2.1.envFile = some env_defaults) := by
  constructor
  · intro c hc
    by_cases h : ext.composeWriteFails = true
    · unfold run_bootstrap
      simp [h, hc]
    · have h' : ext.composeWriteFails = false := by
        simpa using h
      rw [run_bootstrap_normal_shape ext repos w h']
      simp [hc]
  · intro h hnone
    rw [run_bootstrap_normal_shape ext repos w h]
    simp [hnone]

theorem C8_env_amended_witness :
    (worldWithEnvDemo.envFile
        = some "ENV=prod\nPOSTGRES_USER=me\nPOSTGRES_PASSWORD=pw" ∧
      (run_bootstrap failDemoExt REPOS worldWithEnvDemo).2.1.envFile
        = some "ENV=prod\nPOSTGRES_USER=me\nPOSTGRES_PASSWORD=pw") ∧
    (failDemoExt.composeWriteFails = false ∧ worldEmptyDemo.envFile = none ∧
      (run_bootstrap failDemoExt REPOS worldEmptyDemo).2.1.envFile
        = some env_defaults) :=
  ⟨⟨rfl, (C8_env_amended failDemoExt REPOS worldWithEnvDemo).1 _ rfl⟩,
   ⟨rfl, rfl, (C8_env_amended failDemoExt REPOS worldEmptyDemo).2 rfl rfl⟩⟩

/-! ## Helper lemmas for the compose generator -/

theorem charsPre_mono_append {p s : List Char} (t : List Char)
    (h : charsPre p s = true) : charsPre p (s ++ t) = true := by
  induction p generalizing s with
  | nil => simp [charsPre]
  | cons a as ih =>
    cases s with
    | nil => simp [charsPre] at h
    | cons b bs =>
      simp only [List.cons_append, charsPre, Bool.and_eq_true] at h ⊢
      exact ⟨h.1, ih h.2⟩

theorem hasSub_append_right (p s t : List Char) (h : hasSub p t = true) :
    hasSub p (s ++ t) = true := by
  induction s with
  | nil => simpa using h
  | cons c s' ih =>
    simp only [List.cons_append, hasSub, Bool.or_eq_true]
    exact Or.inr ih

theorem hasSub_append_left (p s t : List Char) (h : hasSub p s = true) :
    hasSub p (s ++ t) = true := by
  induction s with
  | nil =>
    cases p with
    | nil => cases t <;> simp [hasSub, charsPre]
    | cons a as => simp [hasSub, charsPre] at h
  | cons c s' ih =>
    simp only [hasSub, Bool.or_eq_true] at h
    rcases h with hpre | hsub
    · simp only [List.cons_append, hasSub, Bool.or_eq_true]
      exact Or.inl (by simpa [List.cons_append] using charsPre_mono_append t hpre)
    · simp only [List.cons_append, hasSub, Bool.or_eq_true]
      exact Or.inr (ih hsub)

theorem servicesBlockOf_data_acc (repos : List Repo) (acc : String) :
    (repos.foldl (fun a r => a ++ serviceBlock r.name) acc).data
      = acc.data ++ blocksData repos := by
  induction repos generalizing acc with
  | nil => simp [blocksData]
  | cons r rest ih =>
    simp only [List.foldl_cons, blocksData]
    rw [ih, String.data_append, List.append_assoc]

theorem servicesBlockOf_data (repos : List Repo) :
    (servicesBlockOf repos).data = blocksData repos := by
  unfold servicesBlockOf
  rw [servicesBlockOf_data_acc]
  rw [show ("" : String).data = [] from rfl, List.nil_append]

theorem blocksData_join (repos : List Repo) :
    blocksData repos
      = (repos.map fun r => (serviceBlock r.name).data).flatten := by
  induction repos with
  | nil => rfl
  | cons r rest ih => simp [blocksData, ih]

theorem generate_data (repos : List Repo) :
    (generate_dynamic_compose repos).data
      = composeHeader.data ++ (blocksData repos ++ ("\n" : String).data) := by
  unfold generate_dynamic_compose
  rw [String.data_append, String.data_append, servicesBlockOf_data,
    List.append_assoc]

theorem serviceBlock_noStraddle (p : List Char) (name : String)
    (hlen : p.length ≤ tailLit.data.length + 1)
    (htail : noStraddleB p tailLit.data = true) :
    noStraddleB p (serviceBlock name).data = true := by
  unfold serviceBlock
  rw [String.data_append]
  exact noStraddleB_append p _ _ hlen htail

theorem occ_blocksData (p t : List Char)
    (hlen : p.length ≤ tailLit.data.length + 1)
    (htail : noStraddleB p tailLit.data = true) :
    ∀ repos : List Repo,
      (∀ r ∈ repos, occCount p (serviceBlock r.name).data = 0) →
      occCount p (blocksData repos ++ t) = occCount p t := by
  intro repos
  induction repos with
  | nil => intro _; simp [blocksData]
  | cons r rest ih =>
    intro h0
    have hns : noStraddleB p (serviceBlock r.name).data = true :=
      serviceBlock_noStraddle p r.name hlen htail
    have h0r : occCount p (serviceBlock r.name).data = 0 :=
      h0 r (List.mem_cons_self r rest)
    have h0rest : ∀ r2 ∈ rest, occCount p (serviceBlock r2.name).data = 0 :=
      fun r2 hr2 => h0 r2 (List.mem_cons_of_mem r hr2)
    calc occCount p (blocksData (r :: rest) ++ t)
        = occCount p ((serviceBlock r.name).data ++ (blocksData rest ++ t)) := by
          simp only [blocksData, List.append_assoc]
      _ = occCount p (serviceBlock r.name).data
            + occCount p (blocksData rest ++ t) := occCount_append p _ _ hns
      _ = occCount p t := by rw [h0r, ih h0rest]; exact Nat.zero_add _

theorem blocksData_hasSub (p : List Char) (repos : List Repo) (r : Repo)
    (hr : r ∈ repos) (h : hasSub p (serviceBlock r.name).data = true) :
    hasSub p (blocksData repos) = true := by
  induction repos with
  | nil => cases hr
  | cons r0 rest ih =>
    rcases List.mem_cons.mp hr with heq | hmem
    · subst heq
      simp only [blocksData]
      exact hasSub_append_left _ _ _ h
    · simp only [blocksData]
      exact hasSub_append_right _ _ _ (ih hmem)

theorem serviceBlock_has_ctx (name : String) :
    hasSub ("context: ./services/" ++ name).data (serviceBlock name).data
      = true :=
  hasSub_of_parts ("context: ./services/" ++ name).data
    ("\n  " ++ name ++ ":\n    build:\n      ").data
    (("\n      args:\n        " ++ ("SERVICE_NAME: " ++ name) ++ tailLit).data)
    (serviceBlock name).data
    (by simp only [serviceBlock, String.data_append, List.append_assoc])

theorem serviceBlock_has_sn (name : String) :
    hasSub ("SERVICE_NAME: " ++ name).data (serviceBlock name).data = true :=
  hasSub_of_parts ("SERVICE_NAME: " ++ name).data
    (("\n  " ++ name ++ ":\n    build:\n      " ++ ("context: ./services/" ++ name)
      ++ "\n      args:\n        ").data)
    tailLit.data
    (serviceBlock name).data
    (by simp only [serviceBlock, String.data_append, List.append_assoc])

/-! ## Claim C4 — the compose generator -/

/-- C4: `generate_dynamic_compose` is a pure deterministic function of the
repo list.  Its output is exactly the fixed header followed by one block per
listed repo (in order) and the closing newline; provided no service name
smuggles in the datastore-image or network-definition text (true of any
sane name), the output contains exactly one datastore block and exactly one
shared network definition, and for every listed repo it contains that repo's
`services/<name>` build context and `SERVICE_NAME` build argument. -/
theorem C4_compose_generator (repos : List Repo)
    (h0 : ∀ r ∈ repos,
      occStr (serviceBlock r.name) datastoreMarker = 0 ∧
      occStr (serviceBlock r.name) networkMarker = 0) :
    (∀ repos2, repos2 = repos →
      generate_dynamic_compose repos2 = generate_dynamic_compose repos) ∧
    occStr (generate_dynamic_compose repos) datastoreMarker = 1 ∧
    occStr (generate_dynamic_compose repos) networkMarker = 1 ∧
    (generate_dynamic_compose repos).data
      = composeHeader.data
        ++ ((repos.map fun r => (serviceBlock r.name).data).flatten
            ++ ("\n" : String).data) ∧
    (∀ r ∈ repos,
      strContains (generate_dynamic_compose repos)
        ("context: ./services/" ++ r.name) = true ∧
      strContains (generate_dynamic_compose repos)
        ("SERVICE_NAME: " ++ r.name) = true) := by
  refine ⟨fun repos2 h => by rw [h], ?_, ?_, ?_, ?_⟩
  · unfold occStr
    rw [generate_data]
    rw [occCount_append datastoreMarker.data composeHeader.data _ (by decide)]
    rw [occ_blocksData datastoreMarker.data ("\n" : String).data (by decide)
      (by decide) repos (fun r hr => (h0 r hr).1)]
    decide
  · unfold occStr
    rw [generate_data]
    rw [occCount_append networkMarker.data composeHeader.data _ (by decide)]
    rw [occ_blocksData networkMarker.data ("\n" : String).data (by decide)
      (by decide) repos (fun r hr => (h0 r hr).2)]
    decide
  · rw [generate_data, blocksData_join]
  · intro r hr
    constructor
    · unfold strContains
      rw [generate_data]
      exact hasSub_append_right _ _ _
        (hasSub_append_left _ _ _
          (blocksData_hasSub _ repos r hr (serviceBlock_has_ctx r.name)))
    · unfold strContains
      rw [generate_data]
      exact hasSub_append_right _ _ _
        (hasSub_append_left _ _ _
          (blocksData_hasSub _ repos r hr (serviceBlock_has_sn r.name)))

theorem C4_compose_generator_witness :
    ((∀ r ∈ REPOS,
        occStr (serviceBlock r.name) datastoreMarker = 0 ∧
        occStr (serviceBlock r.name) networkMarker = 0) ∧
      occStr (generate_dynamic_compose REPOS) datastoreMarker = 1 ∧
      occStr (generate_dynamic_compose REPOS) networkMarker = 1) ∧
    (occStr (generate_dynamic_compose []) datastoreMarker = 1 ∧
      occStr (generate_dynamic_compose []) networkMarker = 1) :=
  ⟨⟨by decide,
    (C4_compose_generator REPOS (by decide)).2.1,
    (C4_compose_generator REPOS (by decide)).2.2.1⟩,
   ⟨(C4_compose_generator [] (by simp)).2.1,
    (C4_compose_generator [] (by simp)).2.2.1⟩⟩

end Infra
